import Mathlib

/-!
Shallow embedding of the OAuth2 token lifecycle and authenticated-fetch
protocol of `curb_energy/client.py` (classes `AuthToken` and
`RestApiClient`).

Modelling conventions:
* the wall clock (`now()` in the source, returning a UTC datetime) is an
  integer timestamp; every source-level call to `now()` becomes an explicit
  `Nat` parameter, so a single Python method that reads the clock several
  times takes several time parameters, in the order of the calls;
* network I/O is explicit: the single auth endpoint response that an
  operation consumes is a parameter (`HttpResponse`), and resource bodies
  are `Option` values (`none` models a body that is not decodable JSON,
  the case caught as `json.decoder.JSONDecodeError` in the source);
* the raised exceptions are an inductive `CurbError`; the source raises
  `CurbBaseException("Authentication Error")`, `CurbBaseException("No
  existing auth token")` and lets `json.loads` raise `ValueError`; the
  spec names these `AuthenticationError`, `NoExistingTokenError` and
  `MalformedTokenError` and the constructors follow the spec names since
  the module `curb_energy/errors.py` defining the class hierarchy is not
  part of the sources;
* a JSON object holding token data is the structure `TokenPayload`; an
  arbitrary byte payload handed to `AuthToken.from_json` is an
  `Option TokenPayload`, `none` modelling data `json.loads` rejects.
-/

/-- A JSON object with the five token keys, as produced by the auth
endpoint and by `AuthToken.json`, and consumed by `AuthToken.from_json`.
`expires_in` is an integer number of seconds (the source serializes a
float number of seconds; the claims at hand ignore sub-second detail and
the equality under test ignores this field entirely). -/
structure TokenPayload where
  access_token : Option String
  refresh_token : Option String
  expires_in : Int
  user_id : Nat
  token_type : String
  deriving DecidableEq, Repr

/-- `curb_energy.client.AuthToken`: `generated_on` is the `now()` captured
by `__init__`; the remaining fields are the constructor arguments. -/
structure AuthToken where
  generated_on : Nat
  access_token : Option String
  refresh_token : Option String
  expires_in : Int
  user_id : Nat
  token_type : String
  deriving DecidableEq, Repr

/-- Python truthiness of an optional string: `None` and `''` are falsy. -/
def strTruthy : Option String → Bool
  | none => false
  | some s => !s.isEmpty

/-- The raised exceptions of the client, named after the spec taxonomy;
see the module comment for the concrete source-level exceptions. -/
inductive CurbError where
  | authenticationError
  | noExistingToken
  | malformedToken
  deriving DecidableEq, Repr

namespace AuthToken

/-- `AuthToken.expiry`: `generated_on + timedelta(0, expires_in)`. -/
def expiry (t : AuthToken) : Int :=
  (t.generated_on : Int) + t.expires_in

/-- `AuthToken.is_valid`, evaluated with the clock reading `now`:
`self.access_token and self.refresh_token and now() < self.expiry`. -/
def is_valid (t : AuthToken) (now : Nat) : Bool :=
  strTruthy t.access_token && strTruthy t.refresh_token
    && decide ((now : Int) < t.expiry)

/-- The constructor call `AuthToken(**payload)` at clock reading `now`
(`generated_on = now()` is captured inside `__init__`). -/
def ofPayload (p : TokenPayload) (now : Nat) : AuthToken :=
  { generated_on := now
    access_token := p.access_token
    refresh_token := p.refresh_token
    expires_in := p.expires_in
    user_id := p.user_id
    token_type := p.token_type }

/-- `AuthToken.json`, evaluated with the clock reading `now`: the
serialized `expires_in` is the remaining lifetime `expiry - now()`. -/
def json (t : AuthToken) (now : Nat) : TokenPayload :=
  { access_token := t.access_token
    refresh_token := t.refresh_token
    expires_in := t.expiry - now
    user_id := t.user_id
    token_type := t.token_type }

/-- `AuthToken.from_json` at clock reading `now`: `json.loads` raises on
a payload that is not valid JSON (`none` here), else the token is rebuilt
through the constructor. -/
def from_json (data : Option TokenPayload) (now : Nat) :
    Except CurbError AuthToken :=
  match data with
  | none => .error .malformedToken
  | some p => .ok (ofPayload p now)

/-- `AuthToken.__eq__`: equality over the four attributes
`access_token`, `refresh_token`, `user_id`, `token_type` only. -/
def eqAttrs (a b : AuthToken) : Bool :=
  a.access_token == b.access_token && a.refresh_token == b.refresh_token
    && a.user_id == b.user_id && a.token_type == b.token_type

end AuthToken

/-! Base64 of the access token, as `base64.b64encode(s.encode())` in
`RestApiClient._auth_headers`: standard base64 over the UTF-8 bytes. -/

/-- The standard base64 alphabet, indexed 0–63. -/
def b64Alphabet : List Char :=
  "ABCDEFGHIJKLMNOPQRSTUVWXYZabcdefghijklmnopqrstuvwxyz0123456789+/".toList

/-- The base64 digit for a 6-bit value. -/
def b64Digit (n : Nat) : Char := b64Alphabet.getD n 'A'

/-- Encode one group of at most three bytes into four base64 characters,
padding with `=` as the standard requires. -/
def b64EncGroup : List Nat → List Char
  | [a] =>
      [b64Digit (a / 4), b64Digit (a % 4 * 16), '=', '=']
  | [a, b] =>
      [b64Digit (a / 4), b64Digit (a % 4 * 16 + b / 16),
       b64Digit (b % 16 * 4), '=']
  | [a, b, c] =>
      [b64Digit (a / 4), b64Digit (a % 4 * 16 + b / 16),
       b64Digit (b % 16 * 4 + c / 64), b64Digit (c % 64)]
  | _ => []

/-- Base64-encode a byte sequence, in groups of three bytes. -/
def b64EncodeBytes : List Nat → List Char
  | [] => []
  | a :: b :: c :: rest => b64EncGroup [a, b, c] ++ b64EncodeBytes rest
  | rest => b64EncGroup rest

/-- UTF-8 encoding of one code point, as `str.encode()` produces. -/
def utf8Bytes (c : Nat) : List Nat :=
  if c < 0x80 then [c]
  else if c < 0x800 then [0xC0 + c / 64, 0x80 + c % 64]
  else if c < 0x10000 then
    [0xE0 + c / 4096, 0x80 + c / 64 % 64, 0x80 + c % 64]
  else
    [0xF0 + c / 262144, 0x80 + c / 4096 % 64, 0x80 + c / 64 % 64,
     0x80 + c % 64]

/-- The UTF-8 bytes of a string (`s.encode()` in the source). -/
def strBytes (s : String) : List Nat :=
  s.toList.flatMap (fun ch => utf8Bytes ch.toNat)

/-- `base64.b64encode(s.encode()).decode('latin1')` for a string `s`. -/
def b64OfString (s : String) : String :=
  String.mk (b64EncodeBytes (strBytes s))

/-! ## `RestApiClient`

The mutable attributes that the token-lifecycle claims touch are
`_auth_token`, `_entry_point` and the open/closed state of `_session`;
the constructor-time credentials are immutable and do not influence the
control flow under verification, so they are left out of the state. -/

/-- A query-string parameter value: the `params` dict of the source mixes
strings (`granularity`, `unit`) and integers (`since`, `until`). -/
inductive ParamVal where
  | str (s : String)
  | int (i : Int)
  deriving DecidableEq, Repr

/-- The parts of an outgoing GET request that the claims talk about. -/
structure HttpRequest where
  url : String
  headers : List (String × String)
  params : List (String × ParamVal)
  deriving DecidableEq, Repr

/-- An auth-endpoint response: HTTP status, and the JSON body that
`AuthToken(**await response.json())` consumes when the status is 200. -/
structure HttpResponse where
  status : Nat
  body : TokenPayload
  deriving DecidableEq, Repr

/-- The mutable client state: `_auth_token`, `_entry_point` (kept
abstract as the decoded entry-point value, if any), and whether
`_session` has been closed. -/
structure ClientState where
  auth_token : Option AuthToken
  entry_point : Option (List (String × String))
  session_closed : Bool
  deriving DecidableEq, Repr

namespace RestApiClient

/-- `RestApiClient.fetch_access_token` consuming auth-endpoint response
`resp`, with the token constructed at clock reading `tTok`: on a non-200
status a warning is logged and `None` is returned; otherwise the decoded
body becomes a fresh `AuthToken`. The client state is not touched. -/
def fetch_access_token (resp : HttpResponse) (tTok : Nat) :
    Option AuthToken :=
  if resp.status ≠ 200 then none
  else some (AuthToken.ofPayload resp.body tTok)

/-- `RestApiClient.refresh_access_token` on state `st`, consuming
auth-endpoint response `resp`, with the new token constructed at clock
reading `tTok`. With no held token it raises (`"No existing auth
token"`); on a non-200 status it returns `None` leaving the state
untouched; on success the new token replaces `_auth_token`. -/
def refresh_access_token (st : ClientState) (resp : HttpResponse)
    (tTok : Nat) : Except CurbError (Option AuthToken × ClientState) :=
  match st.auth_token with
  | none => .error .noExistingToken
  | some _ =>
    if resp.status ≠ 200 then .ok (none, st)
    else
      let token := AuthToken.ofPayload resp.body tTok
      .ok (some token, { st with auth_token := some token })

/-- The tail of `RestApiClient.authenticate`: `if not (token and
token.is_valid): raise`, then `self._auth_token = token`, evaluated with
the clock reading `tFinal` at the validity re-check. -/
def authFinish (st : ClientState) (token : Option AuthToken)
    (tFinal : Nat) : Except CurbError (AuthToken × ClientState) :=
  match token with
  | none => .error .authenticationError
  | some tok =>
    if tok.is_valid tFinal then .ok (tok, { st with auth_token := some tok })
    else .error .authenticationError

/-- `RestApiClient.authenticate` on state `st`, consuming auth-endpoint
response `resp`; the three clock readings are `tCheck` for the
`token.is_valid` branch test, `tTok` for the construction of a fetched
or refreshed token, and `tFinal` for the final validity re-check. -/
def authenticate (st : ClientState) (resp : HttpResponse)
    (tCheck tTok tFinal : Nat) :
    Except CurbError (AuthToken × ClientState) :=
  match st.auth_token with
  | none => authFinish st (fetch_access_token resp tTok) tFinal
  | some tok =>
    if tok.is_valid tCheck then authFinish st (some tok) tFinal
    else
      match refresh_access_token st resp tTok with
      | .error e => .error e
      | .ok (token, st') => authFinish st' token tFinal

/-- `RestApiClient._auth_headers`: the Authorization header carries the
base64 encoding of the stored access token as a Bearer credential. The
source would fail with an attribute error if no token were held; the
callers only reach this after a successful `authenticate`, and the
missing-token value here is never produced on those paths. -/
def auth_headers (st : ClientState) : List (String × String) :=
  match st.auth_token with
  | none => []
  | some tok =>
      [("Authorization",
        "Bearer " ++ b64OfString (tok.access_token.getD ""))]

/-- The guard opening `RestApiClient._fetch`: `if not (self.auth_token
and self.auth_token.is_valid): await self.authenticate()`, yielding the
client state in force when the GET request is issued. `tGuard` is the
clock reading of the guard's validity test; `authResp` and the remaining
clock readings feed `authenticate` when it runs. -/
def fetchPre (st : ClientState) (authResp : HttpResponse)
    (tGuard tCheck tTok tFinal : Nat) : Except CurbError ClientState :=
  match st.auth_token with
  | some tok =>
      if tok.is_valid tGuard then .ok st
      else (authenticate st authResp tCheck tTok tFinal).map (fun r => r.2)
  | none => (authenticate st authResp tCheck tTok tFinal).map (fun r => r.2)

/-- `RestApiClient._fetch` of a resource at `url` with query `params` on
state `st`, after the guard above. `resBody` is the decoded JSON body of
the resource response, `none` when decoding raises `JSONDecodeError`, in
which case a warning is logged and `None` is returned; `load` is the
schema's `load(data).data` step. The result carries the GET request that
was issued. -/
def fetchResource {α β : Type} (st : ClientState) (authResp : HttpResponse)
    (tGuard tCheck tTok tFinal : Nat) (url : String)
    (params : List (String × ParamVal)) (resBody : Option α) (load : α → β) :
    Except CurbError (Option β × ClientState × HttpRequest) :=
  match fetchPre st authResp tGuard tCheck tTok tFinal with
  | .error e => .error e
  | .ok st' =>
    match resBody with
    | none => .ok (none, st', ⟨url, auth_headers st', params⟩)
    | some a => .ok (some (load a), st', ⟨url, auth_headers st', params⟩)

/-- The `params` dict built by `RestApiClient.historical_data`: always
`granularity`, `unit`, `since`; `until` is added only when supplied. -/
def historical_data_params (granularity unit : String) (since : Int)
    (until_ : Option Int) : List (String × ParamVal) :=
  [("granularity", .str granularity), ("unit", .str unit),
   ("since", .int since)] ++
    match until_ with
    | none => []
    | some u => [("until", .int u)]

/-- `RestApiClient.historical_data`: URL from the profile id, the params
dict as above, then `_fetch`. The resource body and schema step are
abstract as in `fetchResource`. -/
def historical_data {α β : Type} (st : ClientState)
    (authResp : HttpResponse) (tGuard tCheck tTok tFinal : Nat)
    (profile_id : Int) (granularity unit : String) (since : Int)
    (until_ : Option Int) (resBody : Option α) (load : α → β) :
    Except CurbError (Option β × ClientState × HttpRequest) :=
  fetchResource st authResp tGuard tCheck tTok tFinal
    ("/api/profiles/" ++ toString profile_id ++ "/historical-data")
    (historical_data_params granularity unit since until_) resBody load

/-- `RestApiClient.__aexit__`: close the session unless already closed
(idempotent release). -/
def aexit (st : ClientState) : ClientState :=
  if st.session_closed then st else { st with session_closed := true }

/-- `RestApiClient.entry_point` fetched right after `authenticate` inside
`__aenter__`: a `_fetch` of the entry-point document; at that point the
fresh token is valid, so only the decode step matters here. `epBody` is
the decoded entry-point body (`none` on a `JSONDecodeError`). -/
def fetch_entry_point (st : ClientState)
    (epBody : Option (List (String × String))) : ClientState :=
  { st with entry_point := epBody }

/-- `RestApiClient.__aenter__` on state `st`: return at once when a held
token is valid (clock reading `tEnter`); otherwise `authenticate` (auth
response `resp`, clock readings as in `authenticate`) then fetch the
entry point; on an exception the session is closed via `__aexit__`
before the exception propagates — the error value carries the state
after that cleanup. -/
def aenter (st : ClientState) (resp : HttpResponse)
    (tEnter tCheck tTok tFinal : Nat)
    (epBody : Option (List (String × String))) :
    Except (CurbError × ClientState) ClientState :=
  match st.auth_token with
  | some tok =>
    if tok.is_valid tEnter then .ok st
    else
      match authenticate st resp tCheck tTok tFinal with
      | .error e => .error (e, aexit st)
      | .ok (_, st') => .ok (fetch_entry_point st' epBody)
  | none =>
    match authenticate st resp tCheck tTok tFinal with
    | .error e => .error (e, aexit st)
    | .ok (_, st') => .ok (fetch_entry_point st' epBody)

end RestApiClient

/-! ## Concrete sample values

Used by the closed instantiations of the theorems below; the string
fields echo the fixtures of the repository's test-suite. -/

/-- A token valid at clock reading 0 (expiry 300). -/
def sampleToken : AuthToken :=
  ⟨0, some "change_me", some "change_me", 300, 1, "bearer"⟩

/-- A token already expired at clock reading 0 (expiry -300). -/
def expiredToken : AuthToken :=
  ⟨0, some "change_me", some "change_me", -300, 1, "bearer"⟩

/-- A fresh auth-endpoint token body. -/
def samplePayload : TokenPayload :=
  ⟨some "new_access", some "new_refresh", 300, 1, "bearer"⟩

/-- A successful auth-endpoint response. -/
def okResp : HttpResponse := ⟨200, samplePayload⟩

/-- An HTTP 401 auth-endpoint response. -/
def errResp : HttpResponse := ⟨401, samplePayload⟩

/-- A freshly constructed client: no token, no entry point, open session. -/
def emptyState : ClientState := ⟨none, none, false⟩

/-- A client holding token `t`, open session. -/
def tokState (t : AuthToken) : ClientState := ⟨some t, none, false⟩

/-! ## Theorems -/

/-- C4: deserializing a serialized token yields a token equal to the
original under `AuthToken.__eq__`, which ignores the timing fields
(`generated_on` / `expires_in`) and compares only `access_token`,
`refresh_token`, `user_id` and `token_type` — the serialize/deserialize
round-trip law, at any pair of serialization/deserialization times. -/
theorem auth_token_roundtrip (t : AuthToken) (tSer tDeser : Nat) :
    ∃ t2, AuthToken.from_json (some (t.json tSer)) tDeser = .ok t2 ∧
      AuthToken.eqAttrs t2 t = true := by
  refine ⟨_, rfl, ?_⟩
  simp [AuthToken.eqAttrs, AuthToken.ofPayload, AuthToken.json]

/-- C7: deserialization of a payload that is not valid structured data
fails with the malformed-token error, and on every well-formed payload
produced by serialization it is the inverse constructor (the rebuilt
token is equal to the original under `AuthToken.__eq__`). -/
theorem from_json_malformed_or_inverse (tDeser : Nat) :
    AuthToken.from_json none tDeser = .error .malformedToken ∧
    ∀ (t : AuthToken) (tSer : Nat), ∃ t2,
      AuthToken.from_json (some (t.json tSer)) tDeser = .ok t2 ∧
        AuthToken.eqAttrs t2 t = true := by
  refine ⟨rfl, fun t tSer => ⟨_, rfl, ?_⟩⟩
  simp [AuthToken.eqAttrs, AuthToken.ofPayload, AuthToken.json]

/-- C6: with no token ever set, the refresh-token renewal raises the
no-existing-token error, for every possible auth-endpoint response (so
no request outcome is consulted) and never the soft `None` return. -/
theorem refresh_without_token (st : ClientState) (resp : HttpResponse)
    (tTok : Nat) (h : st.auth_token = none) :
    RestApiClient.refresh_access_token st resp tTok
      = .error .noExistingToken := by
  unfold RestApiClient.refresh_access_token
  rw [h]

/-- Closed instantiation of `refresh_without_token`. -/
theorem refresh_without_token_inst :
    RestApiClient.refresh_access_token emptyState errResp 0
      = .error .noExistingToken :=
  refresh_without_token emptyState errResp 0 rfl

/-- C10: with a held token, a non-success refresh response makes
`refresh_access_token` return `None` and leaves the stored token exactly
as it was: replacement happens only on a successful response. -/
theorem refresh_failure_keeps_token (st : ClientState)
    (resp : HttpResponse) (tTok : Nat) (tok : AuthToken)
    (hTok : st.auth_token = some tok) (hStatus : resp.status ≠ 200) :
    RestApiClient.refresh_access_token st resp tTok = .ok (none, st) ∧
      st.auth_token = some tok := by
  refine ⟨?_, hTok⟩
  unfold RestApiClient.refresh_access_token
  rw [hTok]
  simp [hStatus]

/-- Closed instantiation of `refresh_failure_keeps_token`. -/
theorem refresh_failure_keeps_token_inst :
    RestApiClient.refresh_access_token (tokState sampleToken) errResp 0
        = .ok (none, tokState sampleToken) ∧
      (tokState sampleToken).auth_token = some sampleToken :=
  refresh_failure_keeps_token (tokState sampleToken) errResp 0
    sampleToken rfl (by decide)

/-- With no held token and a non-success auth response, `authenticate`
raises the authentication error: the password-grant fetch returns `None`
and the final re-check rejects it. -/
lemma authenticate_no_token_fail {st : ClientState} {resp : HttpResponse}
    {tCheck tTok tFinal : Nat} (hTok : st.auth_token = none)
    (hS : resp.status ≠ 200) :
    RestApiClient.authenticate st resp tCheck tTok tFinal
      = .error .authenticationError := by
  unfold RestApiClient.authenticate RestApiClient.fetch_access_token
    RestApiClient.authFinish
  rw [hTok]
  simp [hS]

/-- C1: the grant-selection policy of `authenticate`, characterized by
outcome at the clock readings `tCheck` (branch test), `tTok` (token
construction) and `tFinal` (final re-check): with no held token the
result is that of the password-grant fetch (error on non-success,
otherwise the fetched token installed when valid); with a held invalid
token it is that of the refresh-token renewal; with a held valid token
the held token itself is returned unchanged; and in every branch a
resulting token that is none or still invalid raises the authentication
error instead of returning. -/
theorem authenticate_policy (st : ClientState) (resp : HttpResponse)
    (tCheck tTok tFinal : Nat) :
    (st.auth_token = none → resp.status ≠ 200 →
      RestApiClient.authenticate st resp tCheck tTok tFinal
        = .error .authenticationError) ∧
    (st.auth_token = none → resp.status = 200 →
      RestApiClient.authenticate st resp tCheck tTok tFinal
        = if (AuthToken.ofPayload resp.body tTok).is_valid tFinal then
            .ok (AuthToken.ofPayload resp.body tTok,
                 { st with auth_token := some (AuthToken.ofPayload resp.body tTok) })
          else .error .authenticationError) ∧
    (∀ tok, st.auth_token = some tok → tok.is_valid tCheck = false →
      resp.status ≠ 200 →
      RestApiClient.authenticate st resp tCheck tTok tFinal
        = .error .authenticationError) ∧
    (∀ tok, st.auth_token = some tok → tok.is_valid tCheck = false →
      resp.status = 200 →
      RestApiClient.authenticate st resp tCheck tTok tFinal
        = if (AuthToken.ofPayload resp.body tTok).is_valid tFinal then
            .ok (AuthToken.ofPayload resp.body tTok,
                 { st with auth_token := some (AuthToken.ofPayload resp.body tTok) })
          else .error .authenticationError) ∧
    (∀ tok, st.auth_token = some tok → tok.is_valid tCheck = true →
      RestApiClient.authenticate st resp tCheck tTok tFinal
        = if tok.is_valid tFinal then
            .ok (tok, { st with auth_token := some tok })
          else .error .authenticationError) := by
  refine ⟨?_, ?_, ?_, ?_, ?_⟩
  · intro hTok hS
    unfold RestApiClient.authenticate RestApiClient.fetch_access_token
      RestApiClient.authFinish
    rw [hTok]
    simp [hS]
  · intro hTok hS
    unfold RestApiClient.authenticate RestApiClient.fetch_access_token
      RestApiClient.authFinish
    rw [hTok]
    simp [hS]
  · intro tok hTok hInv hS
    unfold RestApiClient.authenticate RestApiClient.refresh_access_token
      RestApiClient.authFinish
    rw [hTok]
    simp [hInv, hS]
  · intro tok hTok hInv hS
    unfold RestApiClient.authenticate RestApiClient.refresh_access_token
      RestApiClient.authFinish
    rw [hTok]
    simp [hInv, hS]
  · intro tok hTok hVal
    unfold RestApiClient.authenticate RestApiClient.authFinish
    rw [hTok]
    simp [hVal]

/-- Closed instantiation of `authenticate_policy`: a fresh client against
a 401 auth endpoint raises, and a client holding a valid token returns
that token unchanged. -/
theorem authenticate_policy_inst :
    RestApiClient.authenticate emptyState errResp 0 0 0
        = .error .authenticationError ∧
    RestApiClient.authenticate (tokState sampleToken) errResp 0 0 0
        = .ok (sampleToken,
               { tokState sampleToken with auth_token := some sampleToken }) := by
  constructor
  · exact (authenticate_policy emptyState errResp 0 0 0).1 rfl (by decide)
  · have h := (authenticate_policy (tokState sampleToken) errResp 0 0 0).2.2.2.2
      sampleToken rfl (by decide)
    rw [h]
    simp [sampleToken, AuthToken.is_valid, AuthToken.expiry, strTruthy]
    decide

/-- C3: entering a session on a client with no token, when the auth
endpoint answers every grant with a non-success status, raises the
authentication error; the error propagates only after `__aexit__` has
run, so the carried state has the network session closed, and the store
still holds no token. -/
theorem aenter_failure_releases_session (st : ClientState)
    (resp : HttpResponse) (tEnter tCheck tTok tFinal : Nat)
    (epBody : Option (List (String × String)))
    (hTok : st.auth_token = none) (hS : resp.status ≠ 200) :
    RestApiClient.aenter st resp tEnter tCheck tTok tFinal epBody
        = .error (.authenticationError, RestApiClient.aexit st) ∧
      (RestApiClient.aexit st).session_closed = true ∧
      (RestApiClient.aexit st).auth_token = none := by
  have hAuth : RestApiClient.authenticate st resp tCheck tTok tFinal
      = .error .authenticationError :=
    authenticate_no_token_fail hTok hS
  refine ⟨?_, ?_, ?_⟩
  · unfold RestApiClient.aenter
    rw [hTok, hAuth]
  · unfold RestApiClient.aexit
    split
    · next hc => exact hc
    · rfl
  · unfold RestApiClient.aexit
    split <;> simp [hTok]

/-- A successful `authFinish` installs the returned token, which passed
the final validity re-check. -/
lemma authFinish_ok_state {st : ClientState} {token : Option AuthToken}
    {tFinal : Nat} {tok : AuthToken} {st' : ClientState}
    (h : RestApiClient.authFinish st token tFinal = .ok (tok, st')) :
    st'.auth_token = some tok ∧ tok.is_valid tFinal = true := by
  unfold RestApiClient.authFinish at h
  match token with
  | none => simp at h
  | some t =>
    simp only [] at h
    split at h
    · next hv =>
      simp only [Except.ok.injEq, Prod.mk.injEq] at h
      obtain ⟨h1, h2⟩ := h
      subst h1
      subst h2
      exact ⟨rfl, hv⟩
    · simp at h

/-- A successful `authenticate` installs the returned token, which is
valid at the final clock reading. -/
lemma authenticate_ok_state {st : ClientState} {resp : HttpResponse}
    {tCheck tTok tFinal : Nat} {tok : AuthToken} {st' : ClientState}
    (h : RestApiClient.authenticate st resp tCheck tTok tFinal
      = .ok (tok, st')) :
    st'.auth_token = some tok ∧ tok.is_valid tFinal = true := by
  unfold RestApiClient.authenticate at h
  match hst : st.auth_token with
  | none =>
    rw [hst] at h
    exact authFinish_ok_state h
  | some t =>
    rw [hst] at h
    cases hv : t.is_valid tCheck
    · simp only [hv, Bool.false_eq_true, if_false] at h
      match hR : RestApiClient.refresh_access_token st resp tTok with
      | .error e =>
        rw [hR] at h
        exact absurd h (by simp)
      | .ok (token, st1) =>
        rw [hR] at h
        exact authFinish_ok_state h
    · simp only [hv, if_true] at h
      exact authFinish_ok_state h

/-- A successful `_fetch` guard leaves the client holding some token. -/
lemma fetchPre_ok_state {st : ClientState} {authResp : HttpResponse}
    {tGuard tCheck tTok tFinal : Nat} {st' : ClientState}
    (h : RestApiClient.fetchPre st authResp tGuard tCheck tTok tFinal
      = .ok st') :
    ∃ tok, st'.auth_token = some tok := by
  unfold RestApiClient.fetchPre at h
  match hst : st.auth_token with
  | none =>
    rw [hst] at h
    match hA : RestApiClient.authenticate st authResp tCheck tTok tFinal with
    | .error e => rw [hA] at h; simp [Except.map] at h
    | .ok (tok, st1) =>
      rw [hA] at h
      simp only [Except.map, Except.ok.injEq] at h
      subst h
      exact ⟨tok, (authenticate_ok_state hA).1⟩
  | some t =>
    rw [hst] at h
    cases hv : t.is_valid tGuard
    · simp only [hv, Bool.false_eq_true, if_false] at h
      match hA : RestApiClient.authenticate st authResp tCheck tTok tFinal with
      | .error e => rw [hA] at h; simp [Except.map] at h
      | .ok (tok, st1) =>
        rw [hA] at h
        simp only [Except.map, Except.ok.injEq] at h
        subst h
        exact ⟨tok, (authenticate_ok_state hA).1⟩
    · simp only [hv, if_true, Except.ok.injEq] at h
      subst h
      exact ⟨t, hst⟩

/-- A successful `_fetch` issues its request at `url` with `params`, with
the headers of the post-guard state. -/
lemma fetchResource_ok_request {α β : Type} {st : ClientState}
    {authResp : HttpResponse} {tGuard tCheck tTok tFinal : Nat}
    {url : String} {params : List (String × ParamVal)}
    {resBody : Option α} {load : α → β} {res : Option β}
    {st' : ClientState} {req : HttpRequest}
    (h : RestApiClient.fetchResource st authResp tGuard tCheck tTok tFinal
        url params resBody load = .ok (res, st', req)) :
    RestApiClient.fetchPre st authResp tGuard tCheck tTok tFinal = .ok st'
      ∧ req = ⟨url, RestApiClient.auth_headers st', params⟩ := by
  unfold RestApiClient.fetchResource at h
  split at h
  · simp at h
  · next st1 heq =>
    match resBody with
    | none =>
      simp only [Except.ok.injEq, Prod.mk.injEq] at h
      obtain ⟨-, h2, h3⟩ := h
      subst h2
      subst h3
      exact ⟨heq, rfl⟩
    | some a =>
      simp only [Except.ok.injEq, Prod.mk.injEq] at h
      obtain ⟨-, h2, h3⟩ := h
      subst h2
      subst h3
      exact ⟨heq, rfl⟩

/-- A failing `_fetch` guard propagates exactly an `authenticate`
failure: no other source of exceptions precedes the GET request. -/
lemma fetchPre_error {st : ClientState} {authResp : HttpResponse}
    {tGuard tCheck tTok tFinal : Nat} {e : CurbError}
    (h : RestApiClient.fetchPre st authResp tGuard tCheck tTok tFinal
      = .error e) :
    RestApiClient.authenticate st authResp tCheck tTok tFinal
      = .error e := by
  unfold RestApiClient.fetchPre at h
  match hst : st.auth_token with
  | none =>
    rw [hst] at h
    match hA : RestApiClient.authenticate st authResp tCheck tTok tFinal with
    | .error e2 =>
      rw [hA] at h
      simp only [Except.map, Except.error.injEq] at h
      rw [h]
    | .ok p =>
      rw [hA] at h
      simp [Except.map] at h
  | some t =>
    rw [hst] at h
    cases hv : t.is_valid tGuard
    · simp only [hv, Bool.false_eq_true, if_false] at h
      match hA : RestApiClient.authenticate st authResp tCheck tTok tFinal with
      | .error e2 =>
        rw [hA] at h
        simp only [Except.map, Except.error.injEq] at h
        rw [h]
      | .ok p =>
        rw [hA] at h
        simp [Except.map] at h
    · simp only [hv, if_true] at h
      exact absurd h (by simp)

/-- C5: every resource fetch that completes presents an Authorization
header built by base64-encoding the stored access token and sending it
as a Bearer credential (the token is encoded, not sent verbatim). -/
theorem fetch_auth_header (α β : Type) (st : ClientState)
    (authResp : HttpResponse) (tGuard tCheck tTok tFinal : Nat)
    (url : String) (params : List (String × ParamVal))
    (resBody : Option α) (load : α → β) (res : Option β)
    (st' : ClientState) (req : HttpRequest)
    (hOk : RestApiClient.fetchResource st authResp tGuard tCheck tTok
        tFinal url params resBody load = .ok (res, st', req)) :
    ∃ tok, st'.auth_token = some tok ∧
      req.headers
        = [("Authorization",
            "Bearer " ++ b64OfString (tok.access_token.getD ""))] := by
  obtain ⟨hPre, hReq⟩ := fetchResource_ok_request hOk
  obtain ⟨tok, hTok⟩ := fetchPre_ok_state hPre
  refine ⟨tok, hTok, ?_⟩
  subst hReq
  simp [RestApiClient.auth_headers, hTok]

/-- Closed instantiation of `fetch_auth_header`. -/
theorem fetch_auth_header_inst :
    ∃ tok, (tokState sampleToken).auth_token = some tok ∧
      (HttpRequest.mk "/api"
          (RestApiClient.auth_headers (tokState sampleToken)) []).headers
        = [("Authorization",
            "Bearer " ++ b64OfString (tok.access_token.getD ""))] :=
  fetch_auth_header Unit Unit (tokState sampleToken) okResp 0 0 0 0 "/api"
    [] (some ()) id (some ()) (tokState sampleToken)
    (HttpRequest.mk "/api"
      (RestApiClient.auth_headers (tokState sampleToken)) []) rfl

/-- C8: a resource response whose body is not decodable JSON makes the
fetch return `None` after a logged warning: with a valid held token the
call returns `None` outright; every normal completion carries `None`;
and any raised error is an authentication error arising before the
request, never an escalation of the decode failure. -/
theorem fetch_decode_failure_soft (α β : Type) (st : ClientState)
    (authResp : HttpResponse) (tGuard tCheck tTok tFinal : Nat)
    (url : String) (params : List (String × ParamVal)) (load : α → β) :
    (∀ tok, st.auth_token = some tok → tok.is_valid tGuard = true →
      RestApiClient.fetchResource st authResp tGuard tCheck tTok tFinal
          url params (none : Option α) load
        = .ok (none, st, ⟨url, RestApiClient.auth_headers st, params⟩)) ∧
    (∀ out, RestApiClient.fetchResource st authResp tGuard tCheck tTok
        tFinal url params (none : Option α) load = .ok out →
      out.1 = none) ∧
    (∀ e, RestApiClient.fetchResource st authResp tGuard tCheck tTok
        tFinal url params (none : Option α) load = .error e →
      RestApiClient.authenticate st authResp tCheck tTok tFinal
        = .error e) := by
  refine ⟨?_, ?_, ?_⟩
  · intro tok hTok hv
    unfold RestApiClient.fetchResource RestApiClient.fetchPre
    rw [hTok]
    simp [hv]
  · intro out hOut
    unfold RestApiClient.fetchResource at hOut
    split at hOut
    · simp at hOut
    · simp only [Except.ok.injEq] at hOut
      subst hOut
      rfl
  · intro e hErr
    unfold RestApiClient.fetchResource at hErr
    split at hErr
    · next e2 heq =>
      simp only [Except.error.injEq] at hErr
      subst hErr
      exact fetchPre_error heq
    · simp at hErr

/-- Closed instantiation of `fetch_decode_failure_soft`. -/
theorem fetch_decode_failure_soft_inst :
    RestApiClient.fetchResource (tokState sampleToken) errResp 0 0 0 0
        "/api" [] (none : Option Unit) id
      = .ok (none, tokState sampleToken,
             ⟨"/api", RestApiClient.auth_headers (tokState sampleToken),
              []⟩) :=
  (fetch_decode_failure_soft Unit Unit (tokState sampleToken) errResp
    0 0 0 0 "/api" [] id).1 sampleToken rfl (by decide)

/-- C2: a client holding an expired (invalid) token, on the first
resource fetch, transparently replaces the stored token when the
refresh grant succeeds: the fetch completes with the refreshed token
installed, the new token differs from the old one, the old token's
expiry is strictly earlier than the new token's expiry, and the store no
longer holds the old token. The clock readings are monotone
(`tCheck ≤ tFinal`). -/
theorem refresh_replaces_token_on_fetch (α β : Type) (st : ClientState)
    (resp : HttpResponse) (tGuard tCheck tTok tFinal : Nat) (url : String)
    (params : List (String × ParamVal)) (resBody : Option α) (load : α → β)
    (old : AuthToken)
    (hTok : st.auth_token = some old)
    (hAcc : strTruthy old.access_token = true)
    (hRef : strTruthy old.refresh_token = true)
    (hGuard : old.is_valid tGuard = false)
    (hCheck : old.is_valid tCheck = false)
    (hStatus : resp.status = 200)
    (hNew : (AuthToken.ofPayload resp.body tTok).is_valid tFinal = true)
    (hMono : tCheck ≤ tFinal) :
    RestApiClient.fetchResource st resp tGuard tCheck tTok tFinal url
        params resBody load
      = .ok (resBody.map load,
             { st with auth_token := some (AuthToken.ofPayload resp.body tTok) },
             ⟨url,
              RestApiClient.auth_headers
                { st with
                    auth_token := some (AuthToken.ofPayload resp.body tTok) },
              params⟩) ∧
    AuthToken.ofPayload resp.body tTok ≠ old ∧
    old.expiry < (AuthToken.ofPayload resp.body tTok).expiry ∧
    ({ st with auth_token := some (AuthToken.ofPayload resp.body tTok) }
        : ClientState).auth_token ≠ some old := by
  have hExp : old.expiry < (AuthToken.ofPayload resp.body tTok).expiry := by
    simp only [AuthToken.is_valid, hAcc, hRef, Bool.true_and,
      decide_eq_false_iff_not, not_lt] at hCheck
    simp only [AuthToken.is_valid, Bool.and_eq_true, decide_eq_true_eq] at hNew
    have hC2 : ((tCheck : Int)) ≤ ((tFinal : Int)) := by exact_mod_cast hMono
    have := hNew.2
    omega
  have hNe : AuthToken.ofPayload resp.body tTok ≠ old := by
    intro hEq
    rw [hEq] at hExp
    exact lt_irrefl _ hExp
  refine ⟨?_, hNe, hExp, ?_⟩
  · unfold RestApiClient.fetchResource RestApiClient.fetchPre
      RestApiClient.authenticate RestApiClient.refresh_access_token
      RestApiClient.authFinish
    rw [hTok]
    simp only [hGuard, hCheck, Bool.false_eq_true, if_false, hStatus,
      ne_eq, not_true_eq_false, hNew, if_true, Except.map]
    cases resBody <;> rfl
  · simp only [ne_eq, Option.some.injEq]
    exact hNe

/-- Closed instantiation of `refresh_replaces_token_on_fetch`: the fresh
token differs from the expired one and expires strictly later. -/
theorem refresh_replaces_token_inst :
    AuthToken.ofPayload okResp.body 1 ≠ expiredToken ∧
      expiredToken.expiry < (AuthToken.ofPayload okResp.body 1).expiry := by
  have h := refresh_replaces_token_on_fetch Unit Unit
    (tokState expiredToken) okResp 0 0 1 1 "/api" [] none id expiredToken
    rfl (by decide) (by decide) (by decide) (by decide) rfl (by decide)
    (by decide)
  exact ⟨h.2.1, h.2.2.1⟩

/-- C9: the query built by `historical_data` carries no `until` key at
all when the argument is not supplied, carries it as an integer when it
is, and is exactly the parameter list of the request a completing fetch
sends out. -/
theorem historical_data_until_query (g u : String) (s : Int) :
    (RestApiClient.historical_data_params g u s none).lookup "until"
        = none ∧
    (∀ v : ParamVal,
      ("until", v) ∉ RestApiClient.historical_data_params g u s none) ∧
    (∀ x : Int,
      (RestApiClient.historical_data_params g u s (some x)).lookup "until"
        = some (.int x)) ∧
    (∀ (α β : Type) (st : ClientState) (authResp : HttpResponse)
        (tGuard tCheck tTok tFinal : Nat) (pid : Int)
        (uArg : Option Int) (resBody : Option α) (load : α → β)
        (res : Option β) (st' : ClientState) (req : HttpRequest),
      RestApiClient.historical_data st authResp tGuard tCheck tTok tFinal
          pid g u s uArg resBody load = .ok (res, st', req) →
      req.params = RestApiClient.historical_data_params g u s uArg ∧
        req.url = "/api/profiles/" ++ toString pid ++ "/historical-data") := by
  refine ⟨?_, ?_, ?_, ?_⟩
  · simp [RestApiClient.historical_data_params, List.lookup]
  · intro v
    simp [RestApiClient.historical_data_params]
  · intro x
    simp [RestApiClient.historical_data_params, List.lookup]
  · intro α β st authResp tGuard tCheck tTok tFinal pid uArg resBody load
      res st' req hOk
    unfold RestApiClient.historical_data at hOk
    have hReq := (fetchResource_ok_request hOk).2
    subst hReq
    exact ⟨rfl, rfl⟩

/-- Closed instantiation of `historical_data_until_query`: the request a
concrete fetch sends carries exactly the `until`-less parameter list. -/
theorem historical_data_until_inst :
    (HttpRequest.mk
        ("/api/profiles/" ++ toString (1 : Int) ++ "/historical-data")
        (RestApiClient.auth_headers (tokState sampleToken))
        (RestApiClient.historical_data_params "1H" "w" 0 none)).params
      = RestApiClient.historical_data_params "1H" "w" 0 none ∧
    (HttpRequest.mk
        ("/api/profiles/" ++ toString (1 : Int) ++ "/historical-data")
        (RestApiClient.auth_headers (tokState sampleToken))
        (RestApiClient.historical_data_params "1H" "w" 0 none)).url
      = "/api/profiles/" ++ toString (1 : Int) ++ "/historical-data" :=
  (historical_data_until_query "1H" "w" 0).2.2.2 Unit Unit
    (tokState sampleToken) okResp 0 0 0 0 1 none (some ()) id (some ())
    (tokState sampleToken)
    (HttpRequest.mk
      ("/api/profiles/" ++ toString (1 : Int) ++ "/historical-data")
      (RestApiClient.auth_headers (tokState sampleToken))
      (RestApiClient.historical_data_params "1H" "w" 0 none)) rfl

/-- Closed instantiation of `aenter_failure_releases_session`. -/
theorem aenter_failure_releases_session_inst :
    RestApiClient.aenter emptyState errResp 0 0 0 0 none
        = .error (.authenticationError, RestApiClient.aexit emptyState) ∧
      (RestApiClient.aexit emptyState).session_closed = true ∧
      (RestApiClient.aexit emptyState).auth_token = none :=
  aenter_failure_releases_session emptyState errResp 0 0 0 0 none rfl
    (by decide)
